import Mathlib

/-!
Shallow embedding of the `ProductStore` inventory layer
(`challenge-13/submissions/gelozr/solution-template.go`).

The SQLite table `products` is modelled as a list of rows in physical
(insertion) order together with the autoincrement counter.  Go errors
produced with `fmt.Errorf("ctx: %w", err)` are modelled by an inductive
error type that records the wrapping context; `fmt.Errorf("ctx: %w", nil)`
(wrapping a nil error, which produces a chain-less error in Go) is a
separate constructor.  Driver-level failures that depend on the outside
world (a failing Exec, a failing commit, a mid-iteration failure of
`rows.Next`) are injected through explicit fault records, so every error
branch of the source is reachable in the model.
-/

namespace Challenge13

/-- A Go error value as built by the source: either the driver sentinel
`sql.ErrNoRows`, some other driver fault, a wrap `fmt.Errorf("ctx: %w", e)`
of a non-nil error, or a wrap of a nil error (which in Go yields an error
whose chain stops there: `errors.Unwrap` finds nothing). -/
inductive GoErr where
  | sqlNoRows : GoErr
  | driverErr (msg : String) : GoErr
  | wrapErr (ctx : String) (inner : GoErr) : GoErr
  | wrapNil (ctx : String) : GoErr
deriving DecidableEq, Repr

/-- The unwrap chain of an error, as walked by `errors.Is`: the error
itself followed by everything reachable through `%w` wrapping.  Wrapping
nil ends the chain. -/
def GoErr.chain : GoErr → List GoErr
  | .wrapErr c e => .wrapErr c e :: e.chain
  | e => [e]

/-- A row of the `products` table: columns id, name, price, quantity,
category in this order.  Prices are only stored and compared, never
computed with, so an exact numeric type stands in for Go's float64. -/
structure Product where
  id : Int
  name : String
  price : Rat
  quantity : Int
  category : String
deriving DecidableEq, Repr

/-- The database state: committed rows of the `products` table in
physical order, plus the autoincrement counter (SQLite assigns `nextId`
to the next inserted row and never reuses ids). -/
structure DB where
  rows : List Product
  nextId : Int
deriving DecidableEq, Repr

/-- `GetProduct`: `SELECT * FROM products WHERE id = ?` scanned into a
Product.  The driver returns the first matching row; with no matching
row, `Scan` yields `sql.ErrNoRows`, which the function wraps as
"get product". -/
def GetProduct (db : DB) (id : Int) : Except GoErr Product :=
  match db.rows.find? (fun r => r.id == id) with
  | some p => .ok p
  | none => .error (.wrapErr "get product" .sqlNoRows)

/-- Faults injectable into `CreateProduct`: the INSERT statement failing,
or `LastInsertId` failing. -/
structure CreateFaults where
  insertFail : Bool
  lastIdFail : Bool
deriving DecidableEq, Repr

/-- A clean run of `CreateProduct`: no driver fault fires. -/
def cleanCreate : CreateFaults := ⟨false, false⟩

/-- `CreateProduct`: INSERTs name/price/quantity/category (the id column
is assigned by autoincrement), then stores `LastInsertId` into the
caller's struct.  Returns the mutated product alongside the new database
state.  If `LastInsertId` fails the row is already inserted and Go's
multiple assignment has stored the zero value into `product.ID`. -/
def CreateProduct (db : DB) (p : Product) (f : CreateFaults) :
    DB × Product × Option GoErr :=
  if f.insertFail then
    (db, p, some (.wrapErr "insert product" (.driverErr "insert failed")))
  else
    let newRow : Product := { p with id := db.nextId }
    let db' : DB := { rows := db.rows ++ [newRow], nextId := db.nextId + 1 }
    if f.lastIdFail then
      (db', { p with id := 0 },
        some (.wrapErr "get product id" (.driverErr "last insert id failed")))
    else
      (db', { p with id := db.nextId }, none)

/-- `UpdateProduct`: existence guard via `GetProduct` (its error is
wrapped once more as "get product"), then
`UPDATE products SET name = ?, price = ?, quantity = ?, category = ? WHERE id = ?`.
`execFail` injects a failure of that UPDATE statement. -/
def UpdateProduct (db : DB) (p : Product) (execFail : Bool) :
    DB × Option GoErr :=
  match GetProduct db p.id with
  | .error e => (db, some (.wrapErr "get product" e))
  | .ok _ =>
    if execFail then
      (db, some (.wrapErr "update product" (.driverErr "update failed")))
    else
      ({ db with rows := db.rows.map (fun r =>
          if r.id == p.id then
            { r with name := p.name, price := p.price,
                     quantity := p.quantity, category := p.category }
          else r) }, none)

/-- `DeleteProduct`: existence guard via `GetProduct` (wrapped as
"get product"), then `DELETE FROM products WHERE id = ?`.  `execFail`
injects a failure of the DELETE statement. -/
def DeleteProduct (db : DB) (id : Int) (execFail : Bool) :
    DB × Option GoErr :=
  match GetProduct db id with
  | .error e => (db, some (.wrapErr "get product" e))
  | .ok _ =>
    if execFail then
      (db, some (.wrapErr "delete product" (.driverErr "delete failed")))
    else
      ({ db with rows := db.rows.filter (fun r => !(r.id == id)) }, none)

/-- Faults injectable into `ListProducts`: `db.Query` failing outright,
`rows.Scan` failing at a given 0-based row index, or the row iteration
failing mid-stream — the driver delivers only the first `n` rows, then
`rows.Next` returns false with `rows.Err` non-nil.  The source never
consults `rows.Err`. -/
structure IterFaults where
  queryFail : Bool
  scanFailAt : Option Nat
  iterStopAt : Option Nat
deriving DecidableEq, Repr

/-- A clean run of `ListProducts`: no driver fault fires. -/
def cleanIter : IterFaults := ⟨false, none, none⟩

/-- The `for rows.Next()` loop of `ListProducts`: scans each delivered
row, appending to the accumulated slice; a failing `Scan` returns
`(nil, wrapped error)` at once, discarding the partial slice. -/
def scanRows (scanFailAt : Option Nat) :
    List Product → Nat → List Product → List Product × Option GoErr
  | [], _, acc => (acc, none)
  | p :: rest, i, acc =>
    if scanFailAt = some i then
      ([], some (.wrapErr "list products" (.driverErr "scan failed")))
    else
      scanRows scanFailAt rest (i + 1) (acc ++ [p])

/-- `ListProducts`: `SELECT * FROM products`, with `WHERE category = ?`
appended when the category argument is non-empty (with an empty
category the spare argument is ignored by the driver).  A failing query
returns `(nil, wrapped error)`; otherwise the matching rows are scanned
in storage order.  When the iteration stops early (`iterStopAt`), the
loop simply ends: the source returns the partial slice with a nil
error, since `rows.Err` is never checked. -/
def ListProducts (db : DB) (category : String) (f : IterFaults) :
    List Product × Option GoErr :=
  if f.queryFail then
    ([], some (.wrapErr "list products" (.driverErr "query failed")))
  else
    let sel := if category == "" then db.rows
               else db.rows.filter (fun r => r.category == category)
    let delivered := match f.iterStopAt with
               | some n => sel.take n
               | none => sel
    scanRows f.scanFailAt delivered 0 []

/-- Faults injectable into `BatchUpdateInventory`: `db.Begin` failing,
the i-th `tx.Exec` UPDATE failing, `tx.Rollback` failing, `tx.Commit`
failing. -/
structure BatchFaults where
  beginFail : Bool
  execFail : Nat → Bool
  rollbackFail : Bool
  commitFail : Bool

/-- A clean run of `BatchUpdateInventory`: no driver fault fires. -/
def cleanBatch : BatchFaults := ⟨false, fun _ => false, false, false⟩

/-- One `UPDATE products SET quantity = ? WHERE id = ?` inside the
transaction, acting on the staged (uncommitted) table. -/
def applyUpdate (rows : List Product) (id q : Int) : List Product :=
  rows.map (fun r => if r.id == id then { r with quantity := q } else r)

/-- The per-pair loop of `BatchUpdateInventory`, iterating the mapping
in its (realized) iteration order with the running `tx.Exec` index and
the staged table.  The existence check calls `GetProduct` on the main
connection, which sees the committed table `db`, not the staged rows.
On a failing check or UPDATE the code runs `err = tx.Rollback()`: if the
rollback fails that error is returned wrapped as "rollback"; if it
succeeds, `err` now holds nil, so the subsequent
`fmt.Errorf("get products: %w", err)` (resp. "update products") wraps a
nil error — the original fault is no longer in the chain. -/
def batchLoop (db : DB) (f : BatchFaults) :
    List (Int × Int) → Nat → List Product → Except GoErr (List Product)
  | [], _, staged => .ok staged
  | (id, q) :: rest, i, staged =>
    match GetProduct db id with
    | .error _ =>
      if f.rollbackFail then
        .error (.wrapErr "rollback" (.driverErr "rollback failed"))
      else
        .error (.wrapNil "get products")
    | .ok _ =>
      if f.execFail i then
        if f.rollbackFail then
          .error (.wrapErr "rollback" (.driverErr "rollback failed"))
        else
          .error (.wrapNil "update products")
      else
        batchLoop db f rest (i + 1) (applyUpdate staged id q)

/-- `BatchUpdateInventory`: begins a transaction, runs the per-pair loop
against a staged copy of the table, and installs the staged rows only on
a successful commit.  Uncommitted changes are never visible in the
committed state, whether the exit is a rollback (successful or not) or a
failed commit. -/
def BatchUpdateInventory (db : DB) (updates : List (Int × Int))
    (f : BatchFaults) : DB × Option GoErr :=
  if f.beginFail then
    (db, some (.wrapErr "begin tx" (.driverErr "begin failed")))
  else
    match batchLoop db f updates 0 db.rows with
    | .error e => (db, some e)
    | .ok staged =>
      if f.commitFail then
        (db, some (.wrapErr "commit" (.driverErr "commit failed")))
      else
        ({ db with rows := staged }, none)

end Challenge13

namespace Challenge13

/-! ### Helper lemmas -/

/-- Every error is in its own unwrap chain. -/
theorem GoErr.self_mem_chain (e : GoErr) : e ∈ e.chain := by
  cases e <;> simp [GoErr.chain]

/-- `GetProduct` on an absent id returns exactly the wrapped
`sql.ErrNoRows`. -/
theorem GetProduct_error_eq {db : DB} {i : Int} {g : GoErr}
    (h : GetProduct db i = .error g) :
    g = .wrapErr "get product" .sqlNoRows := by
  unfold GetProduct at h
  cases hf : db.rows.find? (fun r => r.id == i) <;> rw [hf] at h <;>
    simp at h
  exact h.symm

/-- A clean scan delivers every row, appended after the accumulator. -/
theorem scanRows_none (rows : List Product) :
    ∀ (i : Nat) (acc : List Product),
      scanRows none rows i acc = (acc ++ rows, none) := by
  induction rows with
  | nil => intro i acc; simp [scanRows]
  | cons p rest ih =>
    intro i acc
    simp [scanRows, ih (i + 1) (acc ++ [p])]

end Challenge13

namespace Challenge13

/-! ### Claim theorems -/

/-- C1: whenever `BatchUpdateInventory` returns an error — a failed
existence check, a failed per-row UPDATE, and also a failed begin,
rollback or commit — the committed table is exactly what it was before
the call: no quantity change from the mapping takes effect. -/
theorem batch_error_atomic (db : DB) (us : List (Int × Int))
    (f : BatchFaults) (e : GoErr)
    (h : (BatchUpdateInventory db us f).2 = some e) :
    (BatchUpdateInventory db us f).1 = db := by
  unfold BatchUpdateInventory at h ⊢
  by_cases hb : f.beginFail = true
  · simp [hb]
  · simp only [hb, Bool.false_eq_true, if_false] at h ⊢
    cases hloop : batchLoop db f us 0 db.rows with
    | error e0 => simp [hloop]
    | ok staged =>
      simp only [hloop] at h ⊢
      by_cases hc : f.commitFail = true
      · simp [hc]
      · simp [hc] at h

/-- C1 witness: a batch naming the absent id 7 on a two-row table fails
and leaves the table untouched. -/
theorem batch_error_atomic_witness :
    (BatchUpdateInventory ⟨[⟨1, "Widget", 0, 10, "tools"⟩], 2⟩
        [(7, 3)] cleanBatch).2 = some (.wrapNil "get products")
    ∧ (BatchUpdateInventory ⟨[⟨1, "Widget", 0, 10, "tools"⟩], 2⟩
        [(7, 3)] cleanBatch).1 = ⟨[⟨1, "Widget", 0, 10, "tools"⟩], 2⟩ :=
  ⟨by decide, batch_error_atomic _ _ _ (.wrapNil "get products") (by decide)⟩

/-- C2: with the empty category string no filter is applied —
`ListProducts` returns every stored row, in storage order, with a nil
error. -/
theorem list_empty_category_all (db : DB) :
    ListProducts db "" cleanIter = (db.rows, none) := by
  simp [ListProducts, cleanIter, scanRows_none]

/-- C8: with a non-empty category string `C`, `ListProducts` returns
exactly the stored rows whose category equals `C` (possibly none of
them), with a nil error. -/
theorem list_filters_by_category (db : DB) (c : String) (h : c ≠ "") :
    ListProducts db c cleanIter
      = (db.rows.filter (fun r => r.category == c), none) := by
  simp [ListProducts, cleanIter, scanRows_none, h]

/-- C8 witness: filtering a two-category table by "tools" keeps exactly
the "tools" row, and filtering by a category present on no row returns
the empty list with a nil error. -/
theorem list_filters_by_category_witness :
    ListProducts ⟨[⟨1, "W", 0, 1, "tools"⟩, ⟨2, "G", 0, 2, "toys"⟩], 3⟩
        "tools" cleanIter = ([⟨1, "W", 0, 1, "tools"⟩], none)
    ∧ ListProducts ⟨[⟨1, "W", 0, 1, "tools"⟩, ⟨2, "G", 0, 2, "toys"⟩], 3⟩
        "misc" cleanIter = ([], none) :=
  ⟨by rw [list_filters_by_category _ _ (by decide)]; decide,
   by rw [list_filters_by_category _ _ (by decide)]; decide⟩

/-- C9: a batch over the empty mapping begins and commits without any
per-pair work and returns success, leaving the table unchanged. -/
theorem batch_empty_noop (db : DB) :
    BatchUpdateInventory db [] cleanBatch = (db, none) := by
  simp [BatchUpdateInventory, cleanBatch, batchLoop]

end Challenge13

namespace Challenge13

/-- C3: at the concrete input — empty table, batch `{1: 5}`, rollback
succeeding — the error returned by `BatchUpdateInventory` wraps a nil
error ("get products: %!w(<nil>)"): because `err = tx.Rollback()`
overwrote the existence-check error with nil before the final wrap, the
underlying not-found error is absent from the returned error's unwrap
chain.  The same overwrite happens on the "update products" path. -/
theorem batch_swallows_cause :
    BatchUpdateInventory ⟨[], 1⟩ [(1, 5)] cleanBatch
      = (⟨[], 1⟩, some (.wrapNil "get products"))
    ∧ GoErr.sqlNoRows ∉ (GoErr.wrapNil "get products").chain
    ∧ GoErr.wrapErr "get product" GoErr.sqlNoRows
        ∉ (GoErr.wrapNil "get products").chain
    ∧ BatchUpdateInventory ⟨[⟨1, "W", 0, 10, "tools"⟩], 2⟩ [(1, 5)]
        ⟨false, fun _ => true, false, false⟩
      = (⟨[⟨1, "W", 0, 10, "tools"⟩], 2⟩, some (.wrapNil "update products"))
    ∧ ∀ e, GoErr.wrapErr "update products" e
        ∉ (GoErr.wrapNil "update products").chain := by
  refine ⟨by decide, by decide, by decide, by decide, ?_⟩
  intro e
  simp [GoErr.chain]

/-- C4: at the concrete input — a two-row table whose row iteration
fails after delivering one row — `ListProducts` exits its `rows.Next`
loop normally and returns the one partial row together with a nil
error, because `rows.Err()` is never checked. -/
theorem list_partial_on_iter_failure :
    ListProducts ⟨[⟨1, "a", 0, 1, "x"⟩, ⟨2, "b", 0, 2, "x"⟩], 3⟩ ""
        ⟨false, none, some 1⟩
      = ([⟨1, "a", 0, 1, "x"⟩], none) := by decide

/-- C5: on an id absent from the table, `UpdateProduct` and
`DeleteProduct` both return the table unchanged together with a wrap of
exactly the error `GetProduct` produces for that id — the wrapped
not-found error sits in the returned error's unwrap chain — and neither
attempts its write. -/
theorem update_delete_absent_id (db : DB) (p : Product) (i : Int)
    (ef1 ef2 : Bool) (g1 g2 : GoErr)
    (h1 : GetProduct db p.id = .error g1)
    (h2 : GetProduct db i = .error g2) :
    g1 = .wrapErr "get product" .sqlNoRows
    ∧ UpdateProduct db p ef1 = (db, some (.wrapErr "get product" g1))
    ∧ g1 ∈ (GoErr.wrapErr "get product" g1).chain
    ∧ g2 = .wrapErr "get product" .sqlNoRows
    ∧ DeleteProduct db i ef2 = (db, some (.wrapErr "get product" g2))
    ∧ g2 ∈ (GoErr.wrapErr "get product" g2).chain := by
  refine ⟨GetProduct_error_eq h1, ?_, ?_, GetProduct_error_eq h2, ?_, ?_⟩
  · unfold UpdateProduct
    rw [h1]
  · exact List.mem_cons_of_mem _ (GoErr.self_mem_chain g1)
  · unfold DeleteProduct
    rw [h2]
  · exact List.mem_cons_of_mem _ (GoErr.self_mem_chain g2)

/-- C5 witness: on a one-row table holding only id 1, updating a product
with id 9 and deleting id 7 both fail with the doubly wrapped not-found
error and leave the table as it was. -/
theorem update_delete_absent_id_witness :
    GetProduct ⟨[⟨1, "W", 0, 1, "t"⟩], 2⟩ 9
      = .error (.wrapErr "get product" .sqlNoRows)
    ∧ GetProduct ⟨[⟨1, "W", 0, 1, "t"⟩], 2⟩ 7
      = .error (.wrapErr "get product" .sqlNoRows)
    ∧ UpdateProduct ⟨[⟨1, "W", 0, 1, "t"⟩], 2⟩ ⟨9, "n", 2, 3, "c"⟩ false
      = (⟨[⟨1, "W", 0, 1, "t"⟩], 2⟩,
         some (.wrapErr "get product" (.wrapErr "get product" .sqlNoRows)))
    ∧ DeleteProduct ⟨[⟨1, "W", 0, 1, "t"⟩], 2⟩ 7 false
      = (⟨[⟨1, "W", 0, 1, "t"⟩], 2⟩,
         some (.wrapErr "get product" (.wrapErr "get product" .sqlNoRows))) := by
  refine ⟨rfl, rfl, ?_, ?_⟩
  · exact (update_delete_absent_id ⟨[⟨1, "W", 0, 1, "t"⟩], 2⟩
      ⟨9, "n", 2, 3, "c"⟩ 7 false false _ _ rfl rfl).2.1
  · exact (update_delete_absent_id ⟨[⟨1, "W", 0, 1, "t"⟩], 2⟩
      ⟨9, "n", 2, 3, "c"⟩ 7 false false _ _ rfl rfl).2.2.2.2.1

end Challenge13

namespace Challenge13

/-- `GetProduct` succeeds exactly on the first matching row. -/
theorem GetProduct_eq_ok {db : DB} {i : Int} {q : Product}
    (h : db.rows.find? (fun r => r.id == i) = some q) :
    GetProduct db i = .ok q := by
  unfold GetProduct
  rw [h]

/-- A successful `GetProduct` exposes the first matching row. -/
theorem GetProduct_ok_find {db : DB} {i : Int} {q : Product}
    (h : GetProduct db i = .ok q) :
    db.rows.find? (fun r => r.id == i) = some q := by
  unfold GetProduct at h
  cases hf : db.rows.find? (fun r => r.id == i) <;> rw [hf] at h <;>
    simp at h
  rw [h]

/-- `find?` skips a block of rows on which the predicate is false. -/
theorem find?_append_left_none {p : Product → Bool} :
    ∀ {l1 : List Product} (l2 : List Product), (∀ a ∈ l1, p a = false) →
      (l1 ++ l2).find? p = l2.find? p := by
  intro l1
  induction l1 with
  | nil => intro l2 _; rfl
  | cons a rest ih =>
    intro l2 h
    have ha : p a = false := h a (List.mem_cons_self a rest)
    rw [List.cons_append, List.find?_cons_of_neg _ (by simp [ha]),
      ih l2 (fun b hb => h b (List.mem_cons_of_mem a hb))]

/-- C6: when the autoincrement id is fresh for the table (as SQLite
guarantees), a clean `CreateProduct` succeeds, stores the assigned id
into the caller's struct in place, and `GetProduct` on that id returns a
row with exactly the Name, Price, Quantity, Category that were passed
in. -/
theorem create_get_roundtrip (db : DB) (p : Product)
    (hfresh : ∀ r ∈ db.rows, r.id ≠ db.nextId) :
    (CreateProduct db p cleanCreate).2.2 = none
    ∧ (CreateProduct db p cleanCreate).2.1 = { p with id := db.nextId }
    ∧ GetProduct (CreateProduct db p cleanCreate).1
        (CreateProduct db p cleanCreate).2.1.id
        = .ok { p with id := db.nextId } := by
  have hfalse : ∀ r ∈ db.rows, (r.id == db.nextId) = false := fun r hr =>
    beq_eq_false_iff_ne.mpr (hfresh r hr)
  refine ⟨rfl, rfl, ?_⟩
  have h1 : (db.rows ++ [{ p with id := db.nextId }]).find?
      (fun r => r.id == db.nextId) = some { p with id := db.nextId } := by
    rw [find?_append_left_none _ hfalse]
    exact List.find?_cons_of_pos _ (by simp)
  exact GetProduct_eq_ok h1

/-- C6 witness: creating Widget(9.99, 10, "tools") on an empty table
assigns id 1 and reads back identically. -/
theorem create_get_roundtrip_witness :
    (∀ r ∈ (⟨[], 1⟩ : DB).rows, r.id ≠ (⟨[], 1⟩ : DB).nextId)
    ∧ ((CreateProduct ⟨[], 1⟩ ⟨0, "Widget", 999/100, 10, "tools"⟩
        cleanCreate).2.1 = ⟨1, "Widget", 999/100, 10, "tools"⟩
    ∧ GetProduct (CreateProduct ⟨[], 1⟩ ⟨0, "Widget", 999/100, 10, "tools"⟩
        cleanCreate).1 1 = .ok ⟨1, "Widget", 999/100, 10, "tools"⟩) :=
  ⟨by simp,
   (create_get_roundtrip ⟨[], 1⟩ ⟨0, "Widget", 999/100, 10, "tools"⟩
      (by simp)).2.1,
   (create_get_roundtrip ⟨[], 1⟩ ⟨0, "Widget", 999/100, 10, "tools"⟩
      (by simp)).2.2⟩

end Challenge13

namespace Challenge13

/-- C10: a successful `UpdateProduct` rewrites only the row whose id
matches the input product — every row keeps its position and its id
(so the target row's id never changes), and rows with a different id
are untouched — while a successful `DeleteProduct` removes exactly the
rows with the given id; neither touches the autoincrement counter. -/
theorem update_delete_frame (db : DB) (p : Product) (i : Int)
    (hU : (UpdateProduct db p false).2 = none)
    (hD : (DeleteProduct db i false).2 = none) :
    (UpdateProduct db p false).1.rows.length = db.rows.length
    ∧ (∀ (j : Nat) (h1 : j < db.rows.length)
        (h2 : j < (UpdateProduct db p false).1.rows.length),
        ((UpdateProduct db p false).1.rows[j]).id = (db.rows[j]).id
        ∧ ((db.rows[j]).id ≠ p.id →
            (UpdateProduct db p false).1.rows[j] = db.rows[j]))
    ∧ (∀ r : Product,
        r ∈ (DeleteProduct db i false).1.rows ↔ r ∈ db.rows ∧ r.id ≠ i)
    ∧ (UpdateProduct db p false).1.nextId = db.nextId
    ∧ (DeleteProduct db i false).1.nextId = db.nextId := by
  cases hg : GetProduct db p.id with
  | error e =>
    unfold UpdateProduct at hU
    rw [hg] at hU
    simp at hU
  | ok w =>
    cases hg2 : GetProduct db i with
    | error e =>
      unfold DeleteProduct at hD
      rw [hg2] at hD
      simp at hD
    | ok w2 =>
      have hEqU : UpdateProduct db p false
          = ({ db with rows := db.rows.map (fun r =>
              if r.id == p.id then
                { r with name := p.name, price := p.price,
                         quantity := p.quantity, category := p.category }
              else r) }, none) := by
        unfold UpdateProduct
        rw [hg]
        simp
      have hEqD : DeleteProduct db i false
          = ({ db with rows := db.rows.filter (fun r => !(r.id == i)) },
             none) := by
        unfold DeleteProduct
        rw [hg2]
        simp
      rw [hEqU, hEqD]
      refine ⟨by simp, ?_, ?_, rfl, rfl⟩
      · intro j h1 h2
        constructor
        · simp only [List.getElem_map]
          by_cases hc : (db.rows[j].id == p.id) = true <;> simp [hc]
        · intro hne
          simp only [List.getElem_map]
          have : (db.rows[j].id == p.id) = false := beq_eq_false_iff_ne.mpr hne
          simp [this]
      · intro r
        simp [List.mem_filter]

end Challenge13

namespace Challenge13

/-- C10 witness: on a two-row table, updating the product with id 1 and
deleting id 2 both succeed, and the frame property holds there. -/
theorem update_delete_frame_witness :
    (UpdateProduct ⟨[⟨1, "a", 0, 1, "x"⟩, ⟨2, "b", 0, 2, "y"⟩], 3⟩
        ⟨1, "n", 2, 3, "z"⟩ false).2 = none
    ∧ (DeleteProduct ⟨[⟨1, "a", 0, 1, "x"⟩, ⟨2, "b", 0, 2, "y"⟩], 3⟩
        2 false).2 = none
    ∧ ((UpdateProduct ⟨[⟨1, "a", 0, 1, "x"⟩, ⟨2, "b", 0, 2, "y"⟩], 3⟩
          ⟨1, "n", 2, 3, "z"⟩ false).1.rows.length
        = (⟨[⟨1, "a", 0, 1, "x"⟩, ⟨2, "b", 0, 2, "y"⟩], 3⟩ : DB).rows.length
      ∧ (∀ (j : Nat)
          (_h1 : j < (⟨[⟨1, "a", 0, 1, "x"⟩, ⟨2, "b", 0, 2, "y"⟩], 3⟩ :
            DB).rows.length)
          (h2 : j < (UpdateProduct
            ⟨[⟨1, "a", 0, 1, "x"⟩, ⟨2, "b", 0, 2, "y"⟩], 3⟩
            ⟨1, "n", 2, 3, "z"⟩ false).1.rows.length),
          ((UpdateProduct ⟨[⟨1, "a", 0, 1, "x"⟩, ⟨2, "b", 0, 2, "y"⟩], 3⟩
              ⟨1, "n", 2, 3, "z"⟩ false).1.rows[j]).id
            = ((⟨[⟨1, "a", 0, 1, "x"⟩, ⟨2, "b", 0, 2, "y"⟩], 3⟩ :
                DB).rows[j]).id
          ∧ (((⟨[⟨1, "a", 0, 1, "x"⟩, ⟨2, "b", 0, 2, "y"⟩], 3⟩ :
                DB).rows[j]).id ≠ (⟨1, "n", 2, 3, "z"⟩ : Product).id →
              (UpdateProduct ⟨[⟨1, "a", 0, 1, "x"⟩, ⟨2, "b", 0, 2, "y"⟩], 3⟩
                ⟨1, "n", 2, 3, "z"⟩ false).1.rows[j]
                = (⟨[⟨1, "a", 0, 1, "x"⟩, ⟨2, "b", 0, 2, "y"⟩], 3⟩ :
                    DB).rows[j]))
      ∧ (∀ r : Product,
          r ∈ (DeleteProduct ⟨[⟨1, "a", 0, 1, "x"⟩, ⟨2, "b", 0, 2, "y"⟩], 3⟩
              2 false).1.rows
            ↔ r ∈ (⟨[⟨1, "a", 0, 1, "x"⟩, ⟨2, "b", 0, 2, "y"⟩], 3⟩ :
                DB).rows ∧ r.id ≠ 2)
      ∧ (UpdateProduct ⟨[⟨1, "a", 0, 1, "x"⟩, ⟨2, "b", 0, 2, "y"⟩], 3⟩
          ⟨1, "n", 2, 3, "z"⟩ false).1.nextId
          = (⟨[⟨1, "a", 0, 1, "x"⟩, ⟨2, "b", 0, 2, "y"⟩], 3⟩ : DB).nextId
      ∧ (DeleteProduct ⟨[⟨1, "a", 0, 1, "x"⟩, ⟨2, "b", 0, 2, "y"⟩], 3⟩
          2 false).1.nextId
          = (⟨[⟨1, "a", 0, 1, "x"⟩, ⟨2, "b", 0, 2, "y"⟩], 3⟩ : DB).nextId) :=
  ⟨rfl, rfl,
   update_delete_frame ⟨[⟨1, "a", 0, 1, "x"⟩, ⟨2, "b", 0, 2, "y"⟩], 3⟩
     ⟨1, "n", 2, 3, "z"⟩ 2 rfl rfl⟩

end Challenge13

namespace Challenge13

/-- The effect of the whole per-pair loop on the staged table: each pair
applies its quantity UPDATE in iteration order. -/
def applyAll (us : List (Int × Int)) (rows : List Product) : List Product :=
  us.foldl (fun rs pr => applyUpdate rs pr.1 pr.2) rows

/-- The single-row transform performed by one staged UPDATE. -/
def setQty (id q : Int) (r : Product) : Product :=
  if r.id == id then { r with quantity := q } else r

/-- A staged quantity UPDATE never changes a row's id. -/
theorem setQty_id (id q : Int) (r : Product) : (setQty id q r).id = r.id := by
  unfold setQty
  split <;> rfl

/-- `applyUpdate` is the row-wise map of `setQty`. -/
theorem applyUpdate_eq_map (rows : List Product) (id q : Int) :
    applyUpdate rows id q = rows.map (setQty id q) := by
  unfold applyUpdate setQty
  rfl

/-- `find?` by id commutes with any id-preserving row transform. -/
theorem find?_map_id_preserving (g : Product → Product)
    (hg : ∀ r, (g r).id = r.id) (tid : Int) :
    ∀ rows : List Product,
      (rows.map g).find? (fun r => r.id == tid)
        = (rows.find? (fun r => r.id == tid)).map g := by
  intro rows
  induction rows with
  | nil => rfl
  | cons r rest ih =>
    cases hpr : (r.id == tid) with
    | true => simp [List.find?_cons, hg, hpr]
    | false => simp [List.find?_cons, hg, hpr, ih]

/-- A pair whose key differs from every remaining key leaves the row
found by that key untouched across the rest of the loop. -/
theorem find?_applyAll_of_not_key :
    ∀ (us : List (Int × Int)) (rows : List Product) (tid : Int),
      (∀ pr ∈ us, pr.1 ≠ tid) →
      (applyAll us rows).find? (fun r => r.id == tid)
        = rows.find? (fun r => r.id == tid) := by
  intro us
  induction us with
  | nil => intro rows tid _; rfl
  | cons hd rest ih =>
    obtain ⟨uid, uq⟩ := hd
    intro rows tid h
    have huid : uid ≠ tid := h (uid, uq) (List.mem_cons_self _ _)
    have hrest : ∀ pr ∈ rest, pr.1 ≠ tid :=
      fun pr hm => h pr (List.mem_cons_of_mem _ hm)
    show (applyAll rest (applyUpdate rows uid uq)).find? _ = _
    rw [ih _ _ hrest, applyUpdate_eq_map,
      find?_map_id_preserving _ (setQty_id uid uq) tid]
    cases hf : rows.find? (fun r => r.id == tid) with
    | none => rfl
    | some r =>
      have hr : r.id = tid := by simpa using List.find?_some hf
      have hne : (r.id == uid) = false :=
        beq_eq_false_iff_ne.mpr (hr ▸ (Ne.symm huid))
      simp [setQty, hne]

/-- After the whole loop, the row found by a key of the mapping is the
original row with exactly that key's quantity installed (keys are
pairwise distinct, as they come from a Go map). -/
theorem find?_applyAll_key :
    ∀ (us : List (Int × Int)) (rows : List Product) (tid q : Int),
      (us.map Prod.fst).Nodup → (tid, q) ∈ us →
      (applyAll us rows).find? (fun r => r.id == tid)
        = (rows.find? (fun r => r.id == tid)).map
            (fun r => { r with quantity := q }) := by
  intro us
  induction us with
  | nil => intro rows tid q _ hmem; cases hmem
  | cons hd rest ih =>
    obtain ⟨uid, uq⟩ := hd
    intro rows tid q hnd hmem
    have hnd' : (uid :: rest.map Prod.fst).Nodup := by simpa using hnd
    rcases List.mem_cons.mp hmem with heq | hmem'
    · obtain ⟨h1, h2⟩ := Prod.mk.injEq tid q uid uq ▸ heq
      subst h1
      subst h2
      have hrest : ∀ pr ∈ rest, pr.1 ≠ tid := by
        intro pr hm hcontra
        exact (List.nodup_cons.mp hnd').1
          (hcontra ▸ List.mem_map_of_mem Prod.fst hm)
      show (applyAll rest (applyUpdate rows tid q)).find? _ = _
      rw [find?_applyAll_of_not_key rest _ tid hrest, applyUpdate_eq_map,
        find?_map_id_preserving _ (setQty_id tid q) tid]
      cases hf : rows.find? (fun r => r.id == tid) with
      | none => rfl
      | some r =>
        have hr : (r.id == tid) = true := by
          simpa using List.find?_some hf
        simp [setQty, hr]
    · have htid : tid ∈ rest.map Prod.fst :=
        List.mem_map_of_mem Prod.fst hmem'
      have huid : uid ≠ tid := by
        intro hcontra
        exact (List.nodup_cons.mp hnd').1 (hcontra ▸ htid)
      show (applyAll rest (applyUpdate rows uid uq)).find? _ = _
      rw [ih _ tid q (List.nodup_cons.mp hnd').2 hmem', applyUpdate_eq_map,
        find?_map_id_preserving _ (setQty_id uid uq) tid]
      cases hf : rows.find? (fun r => r.id == tid) with
      | none => rfl
      | some r =>
        have hr : r.id = tid := by simpa using List.find?_some hf
        have hne : (r.id == uid) = false :=
          beq_eq_false_iff_ne.mpr (hr ▸ (Ne.symm huid))
        simp [setQty, hne]

end Challenge13

namespace Challenge13

/-- A loop run that reaches the end of the mapping has staged exactly
the fold of the per-pair UPDATEs, and every id of the mapping passed its
existence check against the committed table. -/
theorem batchLoop_ok {db : DB} {f : BatchFaults} :
    ∀ (us : List (Int × Int)) (i : Nat) (staged out : List Product),
      batchLoop db f us i staged = .ok out →
      out = applyAll us staged
      ∧ ∀ pr ∈ us, ∃ p, GetProduct db pr.1 = .ok p := by
  intro us
  induction us with
  | nil =>
    intro i staged out h
    simp only [batchLoop] at h
    have hs : staged = out := by simpa using h
    subst hs
    exact ⟨rfl, by simp⟩
  | cons hd rest ih =>
    obtain ⟨id, q⟩ := hd
    intro i staged out h
    cases hget : GetProduct db id with
    | error e =>
      simp only [batchLoop, hget] at h
      split at h <;> simp at h
    | ok p =>
      simp only [batchLoop, hget] at h
      by_cases hexec : f.execFail i = true
      · rw [if_pos hexec] at h
        split at h <;> simp at h
      · rw [if_neg hexec] at h
        obtain ⟨hout, hall⟩ := ih (i + 1) (applyUpdate staged id q) out h
        refine ⟨hout, ?_⟩
        intro pr hpr
        rcases List.mem_cons.mp hpr with heq | hmem'
        · exact ⟨p, heq ▸ hget⟩
        · exact hall pr hmem'

/-- A successful `BatchUpdateInventory` committed exactly the fold of
the per-pair UPDATEs, kept the autoincrement counter, and saw every id
of the mapping pass its existence check. -/
theorem batch_ok_shape {db : DB} {us : List (Int × Int)} {f : BatchFaults}
    (h : (BatchUpdateInventory db us f).2 = none) :
    (BatchUpdateInventory db us f).1.rows = applyAll us db.rows
    ∧ (BatchUpdateInventory db us f).1.nextId = db.nextId
    ∧ ∀ pr ∈ us, ∃ p, GetProduct db pr.1 = .ok p := by
  unfold BatchUpdateInventory at h ⊢
  by_cases hb : f.beginFail = true
  · simp [hb] at h
  · simp only [hb, Bool.false_eq_true, if_false] at h ⊢
    cases hloop : batchLoop db f us 0 db.rows with
    | error e0 => simp [hloop] at h
    | ok staged =>
      simp only [hloop] at h ⊢
      by_cases hc : f.commitFail = true
      · simp [hc] at h
      · simp only [hc, Bool.false_eq_true, if_false]
        obtain ⟨hout, hall⟩ := batchLoop_ok us 0 db.rows staged hloop
        exact ⟨hout, by simp, hall⟩

/-- C7: when the keys of the batch are pairwise distinct (they come from
a Go map) and the call succeeds, `GetProduct` on each listed id
afterwards returns the row it returned before the call with exactly the
mapped quantity installed — Name, Price and Category unchanged. -/
theorem batch_commit_success (db : DB) (us : List (Int × Int))
    (f : BatchFaults) (hnd : (us.map Prod.fst).Nodup)
    (hok : (BatchUpdateInventory db us f).2 = none)
    (id q : Int) (hmem : (id, q) ∈ us) :
    ∃ p, GetProduct db id = .ok p
      ∧ GetProduct (BatchUpdateInventory db us f).1 id
          = .ok { p with quantity := q } := by
  obtain ⟨hrows, _, hall⟩ := batch_ok_shape hok
  obtain ⟨p, hp⟩ := hall (id, q) hmem
  refine ⟨p, hp, ?_⟩
  have hfind : db.rows.find? (fun r => r.id == id) = some p :=
    GetProduct_ok_find hp
  apply GetProduct_eq_ok
  rw [hrows, find?_applyAll_key us db.rows id q hnd hmem, hfind,
    Option.map_some']

/-- C7 witness: on the two-row table, the clean batch `{1: 3, 2: 0}`
succeeds and both rows read back with the new quantity and their other
fields intact. -/
theorem batch_commit_success_witness :
    (([((1 : Int), (3 : Int)), (2, 0)].map Prod.fst).Nodup
    ∧ (BatchUpdateInventory
        ⟨[⟨1, "Widget", 0, 10, "tools"⟩, ⟨2, "Gadget", 0, 5, "toys"⟩], 3⟩
        [(1, 3), (2, 0)] cleanBatch).2 = none)
    ∧ (∃ p, GetProduct
        ⟨[⟨1, "Widget", 0, 10, "tools"⟩, ⟨2, "Gadget", 0, 5, "toys"⟩], 3⟩
        1 = .ok p
      ∧ GetProduct (BatchUpdateInventory
          ⟨[⟨1, "Widget", 0, 10, "tools"⟩, ⟨2, "Gadget", 0, 5, "toys"⟩], 3⟩
          [(1, 3), (2, 0)] cleanBatch).1 1 = .ok { p with quantity := 3 })
    ∧ (∃ p, GetProduct
        ⟨[⟨1, "Widget", 0, 10, "tools"⟩, ⟨2, "Gadget", 0, 5, "toys"⟩], 3⟩
        2 = .ok p
      ∧ GetProduct (BatchUpdateInventory
          ⟨[⟨1, "Widget", 0, 10, "tools"⟩, ⟨2, "Gadget", 0, 5, "toys"⟩], 3⟩
          [(1, 3), (2, 0)] cleanBatch).1 2 = .ok { p with quantity := 0 }) :=
  ⟨⟨by decide, rfl⟩,
   batch_commit_success
     ⟨[⟨1, "Widget", 0, 10, "tools"⟩, ⟨2, "Gadget", 0, 5, "toys"⟩], 3⟩
     [(1, 3), (2, 0)] cleanBatch (by decide) rfl 1 3 (by decide),
   batch_commit_success
     ⟨[⟨1, "Widget", 0, 10, "tools"⟩, ⟨2, "Gadget", 0, 5, "toys"⟩], 3⟩
     [(1, 3), (2, 0)] cleanBatch (by decide) rfl 2 0 (by decide)⟩

end Challenge13
